import Mathlib

/-!
Verification of the risk evaluation engine of the user-risk-system repository
(`cmd/risk-engine/services/risk_engine.go`).

Go strings are modelled as lists of characters (`Str`).  The helper functions
from the `strings` package that the engine uses (`ToLower`, `TrimSpace`,
`EqualFold`, `Contains`, `HasPrefix`, `Split`, `ReplaceAll`, `Join`) are given
executable models below; lower-casing is modelled at the ASCII level, which is
exact for every input appearing in the engine's rules and in the claims.
Regular-expression matching (`regexp.MatchString`) is treated as an external
collaborator: the evaluators take a matching oracle of type `Matcher` as a
parameter, so that the per-rule error-handling paths (invalid pattern, unknown
rule type) are modelled faithfully without reimplementing RE2.

The rule `Confidence` field (a Go `float64` constrained to [0.0, 1.0]) is
modelled as a rational number standing for the value the rule was configured
with; `int(float64(score) * confidence)` is modelled with IEEE-754 binary64
semantics: the score and the confidence are rounded to the binary64 grid
(round to nearest, ties to even), their exact product is rounded to the grid
again, and the result is truncated toward zero — the model computes exactly
what the Go float64 arithmetic computes (for example `int(100 * 0.29) = 28`,
while `⌊100 · 0.29⌋ = 29`).  Overflow to infinity cannot occur for scores
and confidences in the ranges the rules use, so it is not modelled.
-/

set_option maxRecDepth 4000

namespace RiskEngine

/-- Go strings, modelled as lists of characters. -/
abbrev Str := List Char

/-- Embed a Lean string literal into the `Str` model. -/
def str (s : String) : Str := s.toList

/-- ASCII lower-casing of one character, as Go `strings.ToLower` acts on ASCII
(`Char.toLower` from the Lean core library has exactly this behaviour). -/
def goLowerChar (c : Char) : Char := Char.toLower c

/-- Models Go `strings.ToLower` (restricted to its ASCII behaviour). -/
def goToLower (s : Str) : Str := s.map goLowerChar

/-- Models Go `strings.EqualFold` (case-insensitive string equality). -/
def eqFold (a b : Str) : Bool := decide (goToLower a = goToLower b)

/-- The white-space characters recognised by Go `unicode.IsSpace`, which
`strings.TrimSpace` trims from both ends. -/
def goIsSpace (c : Char) : Bool :=
  decide (c ∈ ['\t', '\n', '\u000B', '\u000C', '\r', ' ', '\u0085', '\u00A0',
    '\u1680', '\u2000', '\u2001', '\u2002', '\u2003', '\u2004', '\u2005',
    '\u2006', '\u2007', '\u2008', '\u2009', '\u200A', '\u2028', '\u2029',
    '\u202F', '\u205F', '\u3000'])

/-- Models Go `strings.TrimSpace`: drop white-space from both ends. -/
def goTrimSpace (s : Str) : Str :=
  ((s.dropWhile goIsSpace).reverse.dropWhile goIsSpace).reverse

/-- The call `isPfxOf p s` models Go `strings.HasPrefix s p`. -/
def isPfxOf : Str → Str → Bool
  | [], _ => true
  | _ :: _, [] => false
  | a :: as, b :: bs => a == b && isPfxOf as bs

/-- The call `goContains s sub` models Go `strings.Contains s sub`. -/
def goContains : Str → Str → Bool
  | [], sub => sub.isEmpty
  | c :: rest, sub => isPfxOf sub (c :: rest) || goContains rest sub

/-- The call `splitOnChar sep s` models Go `strings.Split s sep` for a one-character
separator: `splitOnChar '@' "a@b" = ["a", "b"]`, `splitOnChar '@' "" = [""]`. -/
def splitOnChar (sep : Char) : Str → List Str
  | [] => [[]]
  | c :: rest =>
    let parts := splitOnChar sep rest
    if c == sep then [] :: parts
    else (c :: parts.headD []) :: parts.tail

/-- The call `removeAll c s` models Go `strings.ReplaceAll s (string c) ""`. -/
def removeAll (c : Char) (s : Str) : Str := s.filter (fun x => x != c)

/-- The call `joinSep sep parts` models Go `strings.Join parts sep`. -/
def joinSep (sep : Str) : List Str → Str
  | [] => []
  | [x] => x
  | x :: xs => x ++ sep ++ joinSep sep xs

/-- The decimal digit character for `n % 10`. -/
def digitChar (n : Nat) : Char := Char.ofNat (48 + n % 10)

/-- Fuelled decimal rendering of a natural number (most significant digit
first); the fuel is always sufficient because `natToStr` passes `n + 1`. -/
def natToStrAux : Nat → Nat → Str → Str
  | 0, _, acc => acc
  | fuel + 1, n, acc =>
    if n < 10 then digitChar n :: acc
    else natToStrAux fuel (n / 10) (digitChar (n % 10) :: acc)

/-- Decimal rendering of a natural number, as Go `fmt.Sprintf "%d"`. -/
def natToStr (n : Nat) : Str := natToStrAux (n + 1) n []

/-- Decimal rendering of an integer, as Go `fmt.Sprintf "%d"`. -/
def intToStr (i : Int) : Str :=
  if i < 0 then '-' :: natToStr i.natAbs else natToStr i.natAbs


/-- A risk rule (`models.RiskRule`).  The Go struct also carries
`CreatedAt`/`UpdatedAt` timestamps and an `ExpiresAt` pointer which the engine
itself never reads (the rule store filters on them), so they are omitted
here.  `Confidence` is modelled as a rational number. -/
structure RiskRule where
  id : Str
  name : Str
  type : Str
  category : Str
  value : Str
  score : Int
  isActive : Bool := true
  source : Str := str "MANUAL"
  confidence : ℚ
  deriving Repr, DecidableEq

/-- One flag row of a check result (`models.RiskCheckFlag`). -/
structure RiskCheckFlag where
  checkId : Str
  flag : Str
  deriving Repr, DecidableEq

/-- One rule-match audit row of a check result (`models.RiskCheckRuleMatch`). -/
structure RiskCheckRuleMatch where
  checkId : Str
  ruleId : Str
  ruleName : Str
  scoreAdded : Int
  deriving Repr, DecidableEq

/-- The assembled check result (`models.RiskCheckResult`); the database id and
timestamps are omitted, the generated check id is a parameter of `CheckRisk`. -/
structure RiskCheckResult where
  checkId : Str
  userId : Str
  isRisky : Bool
  riskLevel : Str
  totalScore : Int
  reason : Str
  flags : List RiskCheckFlag
  matchedRules : List RiskCheckRuleMatch
  deriving Repr, DecidableEq

/-- The inbound check request (`pb_risk.RiskCheckRequest`). -/
structure RiskCheckRequest where
  userId : Str
  email : Str
  firstName : Str
  lastName : Str
  phone : Str
  deriving Repr, DecidableEq

/-- The mutable fields of `RiskEngine`: the rule cache and its freshness
book-keeping.  The Go cache is a `map[string][]models.RiskRule` whose only
keys are the three categories `"EMAIL"`, `"NAME"`, `"PHONE"`, so it is
represented by its three entries; times are integers and the zero value of
`time.Time` is modelled as `0` with wall-clock instants far larger. -/
structure EngineState where
  emailRules : List RiskRule
  nameRules : List RiskRule
  phoneRules : List RiskRule
  cacheTime : Int
  cacheTTL : Int
  deriving Repr, DecidableEq

deriving instance DecidableEq for Except

/-- The regex oracle standing for `regexp.MatchString pattern s`:
`.error` models an invalid pattern, `.ok` a completed match attempt. -/
abbrev Matcher := Str → Str → Except Str Bool

/-- The rule store read contract `GetRulesByCategory` (external collaborator):
a category is mapped to a rule list or a load error. -/
abbrev RuleLoader := Str → Except Str (List RiskRule)

/-- Fuelled base-2 logarithm: `natLog2Aux fuel n` is `⌊log₂ n⌋` for positive
`n` whenever `fuel ≥ log₂ n`; the fuel makes the recursion structural so the
kernel can evaluate it. -/
def natLog2Aux : Nat → Nat → Nat
  | 0, _ => 0
  | fuel + 1, n => if 2 ≤ n then natLog2Aux fuel (n / 2) + 1 else 0

/-- Floor of the base-2 logarithm of a positive natural number. -/
def natLog2 (n : Nat) : Nat := natLog2Aux n n

/-- Round the positive rational `a / b` (`a, b > 0`) to the IEEE-754 binary64
value nearest to it, ties to even, returned as a mantissa-exponent pair
`(m, E)` denoting `m · 2^E`.  The exponent `e = ⌊log₂ (a/b)⌋` selects the
grid spacing `2^(e-52)` of the normal doubles around `a / b`, floored at the
subnormal spacing `2^(-1074)`; `a / b` is then rounded to that grid half to
even.  The exponent range has no upper ceiling, so overflow to infinity is
not modelled (it is unreachable for the score/confidence ranges in use). -/
def roundF64Pos (a b : Nat) : Nat × Int :=
  let d : Int := (natLog2 a : Int) - (natLog2 b : Int)
  let e : Int := if b * 2 ^ d.toNat ≤ a * 2 ^ (-d).toNat then d else d - 1
  let E : Int := max (e - 52) (-1074)
  let numer := a * 2 ^ (-E).toNat
  let denom := b * 2 ^ E.toNat
  let q0 := numer / denom
  let rem := numer % denom
  let m :=
    if 2 * rem < denom then q0
    else if denom < 2 * rem then q0 + 1
    else if q0 % 2 = 0 then q0 else q0 + 1
  (m, E)

/-- Round the rational `a / b` to the nearest binary64 value (ties to even),
as a signed mantissa-exponent pair; rounding commutes with negation. -/
def roundF64 (a : Int) (b : Nat) : Int × Int :=
  if a = 0 ∨ b = 0 then (0, 0)
  else if 0 < a then
    let p := roundF64Pos a.toNat b
    ((p.1 : Int), p.2)
  else
    let p := roundF64Pos (-a).toNat b
    (-(p.1 : Int), p.2)

/-- Go's `int(x)` conversion of the double `m · 2^E`: truncation toward
zero. -/
def f64Trunc (m E : Int) : Int :=
  if 0 ≤ E then m * 2 ^ E.toNat else m.tdiv (2 ^ (-E).toNat)

/-- Models `int(float64(rule.Score) * rule.Confidence)` — the
confidence-adjusted score contribution of a matched rule, computed as the Go
program computes it: `float64(rule.Score)` rounds the score to binary64;
`rule.Confidence` is a `float64` field, so its stored bits are the binary64
rounding of the configured rational value; the `*` rounds the exact product
of the two doubles back to binary64 (round to nearest, ties to even); and
`int(..)` truncates toward zero.  This deviates from
`⌊score · confidence⌋` exactly where the float arithmetic does: for score
100 and confidence 0.29 it yields 28, not 29. -/
def adjustedScore (r : RiskRule) : Int :=
  let s := roundF64 r.score 1
  let c := roundF64 r.confidence.num r.confidence.den
  let pm := s.1 * c.1
  let pE := s.2 + c.2
  let prod :=
    if 0 ≤ pE then roundF64 (pm * 2 ^ pE.toNat) 1
    else roundF64 pm (2 ^ (-pE).toNat)
  f64Trunc prod.1 prod.2

/-- Models `extractDomain`: split on `'@'` and return the lower-cased second
part when the split has exactly two parts, the empty string otherwise. -/
def extractDomain (email : Str) : Str :=
  let parts := splitOnChar '@' email
  if parts.length = 2 then goToLower (parts.getD 1 []) else []

/-- Models `normalizePhoneNumber`: remove spaces, hyphens, parentheses, plus
signs and periods, then `strings.TrimSpace`. -/
def normalizePhoneNumber (phone : Str) : Str :=
  goTrimSpace (removeAll '.' (removeAll '+' (removeAll ')' (removeAll '('
    (removeAll '-' (removeAll ' ' phone))))))

/-- Models `evaluateEmailRule` (the argument is the already trimmed and
lower-cased address computed by `checkEmailRisk`). -/
def evaluateEmailRule (rx : Matcher) (rule : RiskRule) (emailLower : Str) :
    Except Str Bool :=
  if rule.type = str "EMAIL_BLACKLIST" then
    .ok (eqFold emailLower (goToLower rule.value))
  else if rule.type = str "PATTERN_MATCH" then
    match rx rule.value emailLower with
    | .error e => .error (str "invalid regex pattern: " ++ e)
    | .ok matched => .ok matched
  else if rule.type = str "DOMAIN_BLACKLIST" then
    .ok (eqFold (extractDomain emailLower) (goToLower rule.value))
  else if rule.type = str "CONTAINS" then
    .ok (goContains emailLower (goToLower rule.value))
  else
    .error (str "unknown email rule type: " ++ rule.type)

/-- Models `evaluateNameRule`. -/
def evaluateNameRule (rx : Matcher) (rule : RiskRule)
    (firstNameLower lastNameLower fullName : Str) : Except Str Bool :=
  if rule.type = str "NAME_BLACKLIST" then
    .ok (eqFold fullName (goToLower rule.value))
  else if rule.type = str "PATTERN_MATCH" then
    match rx rule.value fullName with
    | .error e => .error (str "invalid regex pattern: " ++ e)
    | .ok matched => .ok matched
  else if rule.type = str "CONTAINS" then
    .ok (goContains fullName (goToLower rule.value))
  else if rule.type = str "FIRST_NAME_BLACKLIST" then
    .ok (eqFold firstNameLower (goToLower rule.value))
  else if rule.type = str "LAST_NAME_BLACKLIST" then
    .ok (eqFold lastNameLower (goToLower rule.value))
  else
    .error (str "unknown name rule type: " ++ rule.type)

/-- Models `evaluatePhoneRule` (the argument is the normalized number computed
by `checkPhoneRisk`). -/
def evaluatePhoneRule (rx : Matcher) (rule : RiskRule) (normalizedPhone : Str) :
    Except Str Bool :=
  if rule.type = str "PHONE_BLACKLIST" then
    .ok (decide (normalizedPhone = normalizePhoneNumber rule.value))
  else if rule.type = str "PATTERN_MATCH" then
    match rx rule.value normalizedPhone with
    | .error e => .error (str "invalid regex pattern: " ++ e)
    | .ok matched => .ok matched
  else if rule.type = str "PREFIX_BLACKLIST" then
    .ok (isPfxOf (normalizePhoneNumber rule.value) normalizedPhone)
  else
    .error (str "unknown phone rule type: " ++ rule.type)

/-- True when the evaluation of a rule failed. -/
def isErr {α : Type} : Except Str α → Bool
  | .error _ => true
  | .ok _ => false

/-- True when the evaluation of a rule reported a match. -/
def isOkTrue : Except Str Bool → Bool
  | .ok true => true
  | _ => false

/-- The per-category evaluation loop shared verbatim by `checkEmailRisk`,
`checkNameRisk` and `checkPhoneRisk`: evaluate each rule in order; a rule
whose evaluation fails is logged and skipped; a matched rule adds its
confidence-adjusted score, appends the flag `"{CATEGORY}_" + rule.Type` and
is recorded for the audit trail. -/
def runRules (ev : RiskRule → Except Str Bool) (catPfx : Str) :
    List RiskRule → Int × List Str × List RiskRule
  | [] => (0, [], [])
  | r :: rest =>
    match ev r with
    | .error _ => runRules ev catPfx rest
    | .ok false => runRules ev catPfx rest
    | .ok true =>
      (adjustedScore r + (runRules ev catPfx rest).1,
       (catPfx ++ r.type) :: (runRules ev catPfx rest).2.1,
       r :: (runRules ev catPfx rest).2.2)

/-- Models `checkEmailRisk` applied to the cached EMAIL rules. -/
def checkEmailRisk (rx : Matcher) (rules : List RiskRule) (email : Str) :
    Int × List Str × List RiskRule :=
  runRules (fun r => evaluateEmailRule rx r (goToLower (goTrimSpace email)))
    (str "EMAIL_") rules

/-- Models `checkNameRisk` applied to the cached NAME rules. -/
def checkNameRisk (rx : Matcher) (rules : List RiskRule)
    (firstName lastName : Str) : Int × List Str × List RiskRule :=
  let firstNameLower := goToLower (goTrimSpace firstName)
  let lastNameLower := goToLower (goTrimSpace lastName)
  let fullName := goTrimSpace (firstNameLower ++ str " " ++ lastNameLower)
  runRules (fun r => evaluateNameRule rx r firstNameLower lastNameLower fullName)
    (str "NAME_") rules

/-- Models `checkPhoneRisk` applied to the cached PHONE rules. -/
def checkPhoneRisk (rx : Matcher) (rules : List RiskRule) (phone : Str) :
    Int × List Str × List RiskRule :=
  runRules (fun r => evaluatePhoneRule rx r (normalizePhoneNumber phone))
    (str "PHONE_") rules

/-- Models `calculateRiskLevel`: classify a total score into a risk level and
the risky flag. -/
def calculateRiskLevel (totalScore : Int) : Str × Bool :=
  if totalScore ≥ 100 then (str "CRITICAL", true)
  else if totalScore ≥ 80 then (str "HIGH", true)
  else if totalScore ≥ 40 then (str "MEDIUM", true)
  else if totalScore ≥ 20 then (str "LOW", false)
  else (str "MINIMAL", false)

/-- Models `refreshRulesCache`: when the cache has expired, load the three
category lists from the store (the Go loop over `{"EMAIL", "NAME", "PHONE"}`
is unrolled); a load error aborts the refresh before any field of the engine
state is assigned, so the pre-state is returned together with the error. -/
def refreshRulesCache (load : RuleLoader) (now : Int) (s : EngineState) :
    EngineState × Option Str :=
  if now - s.cacheTime ≥ s.cacheTTL then
    match load (str "EMAIL") with
    | .error e => (s, some (str "failed to load EMAIL rules: " ++ e))
    | .ok emailRules =>
      match load (str "NAME") with
      | .error e => (s, some (str "failed to load NAME rules: " ++ e))
      | .ok nameRules =>
        match load (str "PHONE") with
        | .error e => (s, some (str "failed to load PHONE rules: " ++ e))
        | .ok phoneRules =>
          ({ s with emailRules := emailRules, nameRules := nameRules,
                    phoneRules := phoneRules, cacheTime := now }, none)
  else (s, none)

/-- Models `InvalidateCache`: reset the cache timestamp to the zero time. -/
def InvalidateCache (s : EngineState) : EngineState := { s with cacheTime := 0 }

/-- The result value as initialised at the top of `CheckRisk`, before any rule
is evaluated. -/
def defaultResult (checkId userId : Str) : RiskCheckResult :=
  { checkId := checkId
    userId := userId
    isRisky := false
    riskLevel := str "MINIMAL"
    totalScore := 0
    reason := str "No risk factors detected"
    flags := []
    matchedRules := [] }

/-- Models `CheckRisk`: refresh the cache (aborting with the initialised
default result on a refresh error), evaluate the three categories in order
EMAIL, NAME, PHONE, classify the summed score, and assemble flags, audit
entries and the reason string.  The generated check id and the current time
are parameters; the returned pair carries the Go return values and the
post-call engine state. -/
def CheckRisk (rx : Matcher) (load : RuleLoader) (now : Int) (checkId : Str)
    (req : RiskCheckRequest) (s : EngineState) :
    (RiskCheckResult × Option Str) × EngineState :=
  let result0 := defaultResult checkId req.userId
  match refreshRulesCache load now s with
  | (s1, some e) => ((result0, some (str "failed to refresh rules cache: " ++ e)), s1)
  | (s1, none) =>
    let ec := checkEmailRisk rx s1.emailRules req.email
    let nc := checkNameRisk rx s1.nameRules req.firstName req.lastName
    let pc := checkPhoneRisk rx s1.phoneRules req.phone
    let totalScore := ec.1 + nc.1 + pc.1
    let flagStrings := ec.2.1 ++ nc.2.1 ++ pc.2.1
    let matched := ec.2.2 ++ nc.2.2 ++ pc.2.2
    let lv := calculateRiskLevel totalScore
    let flags := flagStrings.map
      (fun f => ({ checkId := checkId, flag := f } : RiskCheckFlag))
    if matched.isEmpty then
      (({ result0 with
          totalScore := totalScore
          riskLevel := lv.1
          isRisky := lv.2
          flags := flags }, none), s1)
    else
      (({ result0 with
          totalScore := totalScore
          riskLevel := lv.1
          isRisky := lv.2
          flags := flags
          matchedRules := matched.map (fun r =>
            ({ checkId := checkId, ruleId := r.id, ruleName := r.name,
               scoreAdded := adjustedScore r } : RiskCheckRuleMatch))
          reason := joinSep (str "; ") (matched.map (fun r =>
            r.name ++ str " (score: " ++ intToStr (adjustedScore r) ++ str ")")) },
        none), s1)

/-! Statement-side definitions: the matched-rule lists of a check, the
ordinal rank of a risk level, and definitions written from the spec's own
words for comparison against the code. -/

/-- The EMAIL rules of a rule list that match an input email: exactly the
rules whose evaluation by `evaluateEmailRule` reports a match. -/
def matchedEmailRules (rx : Matcher) (rules : List RiskRule) (email : Str) :
    List RiskRule :=
  rules.filter (fun r => isOkTrue (evaluateEmailRule rx r (goToLower (goTrimSpace email))))

/-- The NAME rules of a rule list that match an input name pair. -/
def matchedNameRules (rx : Matcher) (rules : List RiskRule)
    (firstName lastName : Str) : List RiskRule :=
  let firstNameLower := goToLower (goTrimSpace firstName)
  let lastNameLower := goToLower (goTrimSpace lastName)
  let fullName := goTrimSpace (firstNameLower ++ str " " ++ lastNameLower)
  rules.filter (fun r =>
    isOkTrue (evaluateNameRule rx r firstNameLower lastNameLower fullName))

/-- The PHONE rules of a rule list that match an input phone number. -/
def matchedPhoneRules (rx : Matcher) (rules : List RiskRule) (phone : Str) :
    List RiskRule :=
  rules.filter (fun r => isOkTrue (evaluatePhoneRule rx r (normalizePhoneNumber phone)))

/-- Ordinal rank of a risk level (MINIMAL < LOW < MEDIUM < HIGH < CRITICAL),
used to state that classification is monotonic in the score. -/
def levelRank (level : Str) : Nat :=
  if level = str "LOW" then 1
  else if level = str "MEDIUM" then 2
  else if level = str "HIGH" then 3
  else if level = str "CRITICAL" then 4
  else 0

/-- Modelled from the spec: the substring of an email after the LAST `'@'`
(the spec's description of `DOMAIN_BLACKLIST` matching), to be compared with
`extractDomain`, which instead requires exactly one `'@'`. -/
def specAfterLastAt (email : Str) : Str :=
  (splitOnChar '@' email).getLastD []

/-- Modelled from the spec: phone normalization that removes exactly spaces,
hyphens, parentheses, plus signs and periods (and nothing else), to be
compared with `normalizePhoneNumber`, which additionally trims white-space. -/
def specStripPhoneChars (phone : Str) : Str :=
  phone.filter (fun c => decide (¬ (c = ' ' ∨ c = '-' ∨ c = '(' ∨ c = ')' ∨ c = '+' ∨ c = '.')))

/-! An interleaving model of `refreshRulesCache` run by two concurrent
callers, for the cache-refresh race of the spec.  Each caller executes two
atomic sections, exactly as the mutex forces in the Go code:

* section 0 (shared read lock): evaluate
  `cacheExpired := time.Since(cacheTime) >= cacheTTL` and remember it;
  a caller that saw a fresh cache is done;
* section 1 (exclusive write lock): the code variant reloads unconditionally
  whenever the caller saw an expired cache; the spec variant
  (`recheck := true`) re-tests staleness after acquiring the write lock and
  skips the reload when a racing caller has refreshed in between.

`loadCount` counts calls into the rule store. -/

/-- Shared state of the refresh race: the cache timestamp and the number of
rule-store loads performed so far. -/
structure SimShared where
  cacheTime : Int
  loadCount : Nat
  deriving Repr, DecidableEq

/-- Per-caller state: program counter (0 = before the read-locked staleness
check, 1 = before the write-locked section, 2 = done) and the staleness value
the caller observed under the read lock. -/
structure SimThread where
  pc : Nat
  sawExpired : Bool
  deriving Repr, DecidableEq

/-- Combined state of two concurrent `refreshRulesCache` callers. -/
structure CacheSim where
  shared : SimShared
  t1 : SimThread
  t2 : SimThread
  now : Int
  ttl : Int
  deriving Repr, DecidableEq

/-- One atomic step of one caller; `recheck` selects the spec variant that
re-tests staleness under the write lock. -/
def threadStep (recheck : Bool) (now ttl : Int) (sh : SimShared)
    (t : SimThread) : SimShared × SimThread :=
  if t.pc = 0 then
    (sh, { pc := 1, sawExpired := decide (now - sh.cacheTime ≥ ttl) })
  else if t.pc = 1 then
    if t.sawExpired && (!recheck || decide (now - sh.cacheTime ≥ ttl)) then
      ({ cacheTime := now, loadCount := sh.loadCount + 1 }, { t with pc := 2 })
    else (sh, { t with pc := 2 })
  else (sh, t)

/-- Run one scheduled step (`false` steps caller 1, `true` steps caller 2). -/
def simStep (recheck : Bool) (tid : Bool) (s : CacheSim) : CacheSim :=
  if tid then
    let st := threadStep recheck s.now s.ttl s.shared s.t2
    { s with shared := st.1, t2 := st.2 }
  else
    let st := threadStep recheck s.now s.ttl s.shared s.t1
    { s with shared := st.1, t1 := st.2 }

/-- Run a schedule of interleaved steps. -/
def runSim (recheck : Bool) (sched : List Bool) (s : CacheSim) : CacheSim :=
  sched.foldl (fun st tid => simStep recheck tid st) s

/-- Initial race state: both callers at the staleness check, the cache
expired (`now - cacheTime = 1000 ≥ ttl = 300`), no loads performed. -/
def simInit : CacheSim :=
  { shared := { cacheTime := 0, loadCount := 0 }
    t1 := { pc := 0, sawExpired := false }
    t2 := { pc := 0, sawExpired := false }
    now := 1000
    ttl := 300 }

/-! Concrete fixtures used by witnesses and counterexamples. -/

/-- A regex oracle that reports every pattern as invalid; none of the
concrete scenarios below contains a `PATTERN_MATCH` rule, so it is never
consulted on a path that matters. -/
def rxNone : Matcher := fun _ _ => Except.error (str "pattern not compiled")

/-- A rule store that always fails. -/
def loadNone : RuleLoader := fun _ => Except.error (str "store unreachable")

/-- A rule store that returns no rules for every category. -/
def loadEmpty : RuleLoader := fun _ => Except.ok []

/-- A rule store that fails for the NAME category only. -/
def loadNameFails : RuleLoader := fun c =>
  if c = str "NAME" then Except.error (str "boom") else Except.ok []

/-- Build a rule with the given type, value, score and confidence (identity
fields fixed, as they do not influence matching). -/
def mkRule (t v : Str) (score : Int) (conf : ℚ) : RiskRule :=
  { id := str "rule-1", name := str "Bad Email", type := t,
    category := str "EMAIL", value := v, score := score, confidence := conf }

/-- The single-rule scenario of the spec: one EMAIL blacklist rule for
`"bad@x.com"` with score 100 and confidence 1.0. -/
def ruleBadEmail : RiskRule := mkRule (str "EMAIL_BLACKLIST") (str "bad@x.com") 100 1

/-- Engine state whose cache holds exactly `ruleBadEmail` and is fresh at
`now = 0`. -/
def st3 : EngineState :=
  { emailRules := [ruleBadEmail], nameRules := [], phoneRules := [],
    cacheTime := 0, cacheTTL := 300 }

/-- The check request of the scenario: the blacklisted email, empty names and
phone. -/
def req3 : RiskCheckRequest :=
  { userId := str "u1", email := str "bad@x.com", firstName := [],
    lastName := [], phone := [] }

/-- The rational 0.29, a value the confidence column (`decimal(3,2)`) can
hold, given with explicit numerator and denominator so the kernel can
evaluate with it. -/
def conf29 : ℚ := ⟨29, 100, by norm_num, by norm_num⟩

/-- An EMAIL blacklist rule with score 100 and confidence 0.29. -/
def ruleConf29 : RiskRule := mkRule (str "EMAIL_BLACKLIST") (str "bad@x.com") 100 conf29

/-- Engine state whose fresh cache holds exactly `ruleConf29`. -/
def st29 : EngineState :=
  { emailRules := [ruleConf29], nameRules := [], phoneRules := [],
    cacheTime := 0, cacheTTL := 300 }

/-! Helper lemmas shared by the claim theorems. -/

theorem toNat_goLowerChar (c : Char) :
    (goLowerChar c).toNat =
      if 65 ≤ c.toNat ∧ c.toNat ≤ 90 then c.toNat + 32 else c.toNat := by
  show (if c.toNat ≥ 65 ∧ c.toNat ≤ 90 then Char.ofNat (c.toNat + 32) else c).toNat = _
  split_ifs with h
  · have hv : (c.toNat + 32).isValidChar := Or.inl (by omega)
    rw [Char.ofNat, dif_pos hv]
    rfl
  · rfl

theorem charToNat_inj {c d : Char} (h : c.toNat = d.toNat) : c = d :=
  Char.ext (UInt32.ext h)

theorem goLowerChar_idem (c : Char) :
    goLowerChar (goLowerChar c) = goLowerChar c := by
  apply charToNat_inj
  rw [toNat_goLowerChar, toNat_goLowerChar]
  split_ifs <;> omega

theorem goToLower_idem (s : Str) : goToLower (goToLower s) = goToLower s := by
  induction s with
  | nil => rfl
  | cons c cs ih =>
    simp only [goToLower, List.map_cons, List.cons.injEq] at *
    exact ⟨goLowerChar_idem c, ih⟩

theorem goToLower_eq_nil {s : Str} : goToLower s = [] ↔ s = [] := by
  simp [goToLower]

theorem eqFold_lower_right (a b : Str) : eqFold a (goToLower b) = eqFold a b := by
  simp [eqFold, goToLower_idem]

theorem eqFold_lower_left (a b : Str) : eqFold (goToLower a) b = eqFold a b := by
  simp [eqFold, goToLower_idem]

theorem runRules_matched (ev : RiskRule → Except Str Bool) (pfx : Str)
    (rules : List RiskRule) :
    (runRules ev pfx rules).2.2 = rules.filter (fun r => isOkTrue (ev r)) := by
  induction rules with
  | nil => rfl
  | cons r rest ih =>
    cases h : ev r with
    | error e => simp [runRules, h, isOkTrue, List.filter_cons, ih]
    | ok b => cases b <;> simp [runRules, h, isOkTrue, List.filter_cons, ih]

theorem runRules_score (ev : RiskRule → Except Str Bool) (pfx : Str)
    (rules : List RiskRule) :
    (runRules ev pfx rules).1 =
      (((runRules ev pfx rules).2.2).map adjustedScore).sum := by
  induction rules with
  | nil => rfl
  | cons r rest ih =>
    cases h : ev r with
    | error e => simp [runRules, h, ih]
    | ok b => cases b <;> simp [runRules, h, ih]

theorem runRules_flags (ev : RiskRule → Except Str Bool) (pfx : Str)
    (rules : List RiskRule) :
    (runRules ev pfx rules).2.1 =
      ((runRules ev pfx rules).2.2).map (fun r => pfx ++ r.type) := by
  induction rules with
  | nil => rfl
  | cons r rest ih =>
    cases h : ev r with
    | error e => simp [runRules, h, ih]
    | ok b => cases b <;> simp [runRules, h, ih]

theorem runRules_skipErr (ev : RiskRule → Except Str Bool) (pfx : Str)
    (rules : List RiskRule) :
    runRules ev pfx (rules.filter (fun r => !(isErr (ev r)))) =
      runRules ev pfx rules := by
  induction rules with
  | nil => rfl
  | cons r rest ih =>
    simp only [isErr] at ih ⊢
    cases h : ev r with
    | error e => simp [List.filter_cons, h, runRules, ih]
    | ok b => cases b <;> simp [List.filter_cons, h, runRules, ih]

theorem runRules_noMatch (ev : RiskRule → Except Str Bool) (pfx : Str)
    (rules : List RiskRule) (h : ∀ r ∈ rules, isOkTrue (ev r) = false) :
    runRules ev pfx rules = (0, [], []) := by
  induction rules with
  | nil => rfl
  | cons r rest ih =>
    have hr := h r (by simp)
    have hrest : ∀ x ∈ rest, isOkTrue (ev x) = false := fun x hx => h x (by simp [hx])
    cases hev : ev r with
    | error e => simp [runRules, hev, ih hrest]
    | ok b =>
      cases b with
      | false => simp [runRules, hev, ih hrest]
      | true =>
        rw [hev] at hr
        simp [isOkTrue] at hr

theorem refreshRulesCache_fresh (load : RuleLoader) (now : Int)
    (s : EngineState) (h : now - s.cacheTime < s.cacheTTL) :
    refreshRulesCache load now s = (s, none) := by
  unfold refreshRulesCache
  rw [if_neg (by omega)]

/-! The claim theorems. -/

/-- C1: `calculateRiskLevel` returns (CRITICAL, risky) for scores at least
100, (HIGH, risky) on [80, 100), (MEDIUM, risky) on [40, 80), (LOW, not
risky) on [20, 40) and (MINIMAL, not risky) below 20; the ten sample scores
classify as listed in the spec; the risky flag is true exactly for the levels
MEDIUM, HIGH and CRITICAL; and the classification is monotonic in the score. -/
theorem C1_risk_level_classification :
    (∀ s : Int,
      (100 ≤ s → calculateRiskLevel s = (str "CRITICAL", true)) ∧
      (80 ≤ s ∧ s < 100 → calculateRiskLevel s = (str "HIGH", true)) ∧
      (40 ≤ s ∧ s < 80 → calculateRiskLevel s = (str "MEDIUM", true)) ∧
      (20 ≤ s ∧ s < 40 → calculateRiskLevel s = (str "LOW", false)) ∧
      (s < 20 → calculateRiskLevel s = (str "MINIMAL", false)) ∧
      ((calculateRiskLevel s).2 = true ↔
        (calculateRiskLevel s).1 = str "MEDIUM" ∨
          (calculateRiskLevel s).1 = str "HIGH" ∨
          (calculateRiskLevel s).1 = str "CRITICAL")) ∧
    (([0, 19, 20, 39, 40, 79, 80, 99, 100, 150] : List Int).map
        (fun s => (calculateRiskLevel s).1) =
      [str "MINIMAL", str "MINIMAL", str "LOW", str "LOW", str "MEDIUM",
        str "MEDIUM", str "HIGH", str "HIGH", str "CRITICAL", str "CRITICAL"]) ∧
    (∀ s t : Int, s ≤ t →
      levelRank (calculateRiskLevel s).1 ≤ levelRank (calculateRiskLevel t).1) := by
  refine ⟨fun s => ?_, by decide, fun s t hst => ?_⟩
  · unfold calculateRiskLevel
    split_ifs <;>
      refine ⟨?_, ?_, ?_, ?_, ?_, ?_⟩ <;>
        first
          | decide
          | (intro hh; first | rfl | (exfalso; omega))
  · unfold calculateRiskLevel
    split_ifs <;> first | decide | (exfalso; omega)

/-- Witness for C1 at concrete scores: 100 classifies as (CRITICAL, true)
and the level rank is monotonic from score 25 to score 120. -/
theorem C1_risk_level_classification_witness :
    calculateRiskLevel 100 = (str "CRITICAL", true) ∧
    levelRank (calculateRiskLevel 25).1 ≤ levelRank (calculateRiskLevel 120).1 :=
  ⟨(C1_risk_level_classification.1 100).1 (by decide),
    C1_risk_level_classification.2.2 25 120 (by decide)⟩

/-- C3 counterexample: in the spec's single-rule scenario (one EMAIL
blacklist rule of type string "EMAIL_BLACKLIST" for "bad@x.com", score 100,
confidence 1.0, input email "bad@x.com"), the produced flag list is
["EMAIL_EMAIL_BLACKLIST"] — the category prefix "EMAIL_" is prepended to the
full rule type string — and not ["EMAIL_BLACKLIST"] as the claim states. -/
theorem C3_counterexample :
    ((CheckRisk rxNone loadNone 0 (str "check_1") req3 st3).1.1).flags.map
        (fun f => f.flag) ≠ [str "EMAIL_BLACKLIST"] ∧
    ((CheckRisk rxNone loadNone 0 (str "check_1") req3 st3).1.1).flags.map
        (fun f => f.flag) = [str "EMAIL_EMAIL_BLACKLIST"] := by
  decide

/-- C3 (amended): the scenario yields total score 100, risk level CRITICAL,
isRisky = true, flags exactly ["EMAIL_EMAIL_BLACKLIST"] (the flag string
being "{CATEGORY}_{RULE_TYPE}" with the rule's type string
"EMAIL_BLACKLIST"), and a reason containing the rule name and
"(score: 100)"; the check returns no error. -/
theorem C3_scenario_amended :
    ((CheckRisk rxNone loadNone 0 (str "check_1") req3 st3).1.1).totalScore = 100 ∧
    ((CheckRisk rxNone loadNone 0 (str "check_1") req3 st3).1.1).riskLevel =
      str "CRITICAL" ∧
    ((CheckRisk rxNone loadNone 0 (str "check_1") req3 st3).1.1).isRisky = true ∧
    ((CheckRisk rxNone loadNone 0 (str "check_1") req3 st3).1.1).flags.map
        (fun f => f.flag) = [str "EMAIL" ++ str "_" ++ ruleBadEmail.type] ∧
    goContains ((CheckRisk rxNone loadNone 0 (str "check_1") req3 st3).1.1).reason
        ruleBadEmail.name = true ∧
    goContains ((CheckRisk rxNone loadNone 0 (str "check_1") req3 st3).1.1).reason
        (str "(score: 100)") = true ∧
    (CheckRisk rxNone loadNone 0 (str "check_1") req3 st3).1.2 = none := by
  decide

/-- C6: against the spec, two callers racing on an expired cache both
reload.  Each caller atomically tests staleness under the read lock, then
atomically reloads under the write lock; the code performs no staleness
re-check under the write lock, so in the schedule where both callers pass
the read-locked test before either acquires the write lock, the store is
loaded twice.  The spec's double-checked variant (`recheck := true`) loads
exactly once under the same schedule. -/
theorem C6_refresh_race_double_load :
    (runSim false [false, true, false, true] simInit).shared.loadCount = 2 ∧
    (runSim true [false, true, false, true] simInit).shared.loadCount = 1 := by
  decide

/-- C10: whenever the cache refresh fails, `CheckRisk` returns the error
together with the result value still in its initialised default state:
IsRisky = false, RiskLevel "MINIMAL", TotalScore 0, Reason "No risk factors
detected", empty flags and matched rules. -/
theorem C10_error_returns_default_result (rx : Matcher) (load : RuleLoader)
    (now : Int) (checkId : Str) (req : RiskCheckRequest) (s : EngineState)
    (e : Str) (h : (refreshRulesCache load now s).2 = some e) :
    (CheckRisk rx load now checkId req s).1.1 = defaultResult checkId req.userId ∧
    (CheckRisk rx load now checkId req s).1.2 =
      some (str "failed to refresh rules cache: " ++ e) ∧
    defaultResult checkId req.userId =
      { checkId := checkId
        userId := req.userId
        isRisky := false
        riskLevel := str "MINIMAL"
        totalScore := 0
        reason := str "No risk factors detected"
        flags := []
        matchedRules := [] } := by
  cases hr : refreshRulesCache load now s with
  | mk s1 o =>
    rw [hr] at h
    replace h : o = some e := h
    subst h
    refine ⟨?_, ?_, rfl⟩ <;> simp [CheckRisk, hr]

/-- Witness for C10: with an unreachable rule store and an expired cache,
the concrete check returns the default (no-risk) result. -/
theorem C10_error_returns_default_result_witness :
    (CheckRisk rxNone loadNone 1000 (str "check_1") req3 st3).1.1 =
      defaultResult (str "check_1") (str "u1") :=
  (C10_error_returns_default_result rxNone loadNone 1000 (str "check_1") req3 st3
    (str "failed to load EMAIL rules: store unreachable") (by decide)).1

/-- C4: when the cache is expired and loading any one of the three category
lists fails, `refreshRulesCache` returns the failure and leaves the engine
state — every cached category list and the last-refreshed timestamp —
exactly as it was, and the in-flight `CheckRisk` aborts with an error,
likewise leaving the state unchanged. -/
theorem C4_refresh_failure_preserves_snapshot (rx : Matcher) (load : RuleLoader)
    (now : Int) (checkId : Str) (req : RiskCheckRequest) (s : EngineState)
    (hexp : now - s.cacheTime ≥ s.cacheTTL)
    (herr : isErr (load (str "EMAIL")) = true ∨ isErr (load (str "NAME")) = true ∨
      isErr (load (str "PHONE")) = true) :
    (refreshRulesCache load now s).1 = s ∧
    ((refreshRulesCache load now s).2).isSome = true ∧
    (CheckRisk rx load now checkId req s).2 = s ∧
    ((CheckRisk rx load now checkId req s).1.2).isSome = true := by
  have hre : ∃ e, refreshRulesCache load now s = (s, some e) := by
    unfold refreshRulesCache
    rw [if_pos hexp]
    cases h1 : load (str "EMAIL") with
    | error e => exact ⟨_, rfl⟩
    | ok l1 =>
      cases h2 : load (str "NAME") with
      | error e => exact ⟨_, rfl⟩
      | ok l2 =>
        cases h3 : load (str "PHONE") with
        | error e => exact ⟨_, rfl⟩
        | ok l3 =>
          exfalso
          rcases herr with h | h | h <;>
            [rw [h1] at h; rw [h2] at h; rw [h3] at h] <;> simp [isErr] at h
  obtain ⟨e, he⟩ := hre
  refine ⟨?_, ?_, ?_, ?_⟩ <;> simp [CheckRisk, he]

/-- Witness for C4: with an expired cache and a store failing on the NAME
category, the concrete refresh leaves the state unchanged. -/
theorem C4_refresh_failure_preserves_snapshot_witness :
    (refreshRulesCache loadNameFails 1000 st3).1 = st3 :=
  (C4_refresh_failure_preserves_snapshot rxNone loadNameFails 1000 (str "check_1")
    req3 st3 (by decide) (Or.inr (Or.inl (by decide)))).1

/-- C5: a rule whose evaluation fails (invalid regex pattern or unknown rule
type) contributes no score, no flag and no audit entry, and the other rules
are still evaluated: each per-category check is unchanged when the failing
rules are removed from its rule list; and a check whose cache refresh
succeeds completes without error whatever the rules contain. -/
theorem C5_rule_errors_are_skipped (rx : Matcher)
    (email firstName lastName phone : Str) (rules : List RiskRule) :
    checkEmailRisk rx rules email =
      checkEmailRisk rx (rules.filter (fun r =>
        !(isErr (evaluateEmailRule rx r (goToLower (goTrimSpace email)))))) email ∧
    checkNameRisk rx rules firstName lastName =
      checkNameRisk rx (rules.filter (fun r =>
        !(isErr (evaluateNameRule rx r (goToLower (goTrimSpace firstName))
          (goToLower (goTrimSpace lastName))
          (goTrimSpace (goToLower (goTrimSpace firstName) ++ str " " ++
            goToLower (goTrimSpace lastName))))))) firstName lastName ∧
    checkPhoneRisk rx rules phone =
      checkPhoneRisk rx (rules.filter (fun r =>
        !(isErr (evaluatePhoneRule rx r (normalizePhoneNumber phone))))) phone ∧
    (∀ (load : RuleLoader) (now : Int) (checkId : Str) (req : RiskCheckRequest)
        (s : EngineState),
      (refreshRulesCache load now s).2 = none →
        (CheckRisk rx load now checkId req s).1.2 = none) := by
  refine ⟨?_, ?_, ?_, ?_⟩
  · simp only [checkEmailRisk]
    exact (runRules_skipErr _ _ _).symm
  · simp only [checkNameRisk]
    exact (runRules_skipErr _ _ _).symm
  · simp only [checkPhoneRisk]
    exact (runRules_skipErr _ _ _).symm
  · intro load now checkId req s h
    cases hr : refreshRulesCache load now s with
    | mk s1 o =>
      rw [hr] at h
      replace h : o = none := h
      subst h
      simp only [CheckRisk, hr]
      split <;> rfl

/-- Witness for C5: a concrete check against an empty store (expired cache,
successful refresh) completes without error. -/
theorem C5_rule_errors_are_skipped_witness :
    (CheckRisk rxNone loadEmpty 1000 (str "check_5") req3 st3).1.2 = none :=
  (C5_rule_errors_are_skipped rxNone (str "a") (str "b") (str "c") (str "d")
    []).2.2.2 loadEmpty 1000 (str "check_5") req3 st3 (by decide)

/-- C7 counterexample: for the email "a@b@example.com" the substring after
the last '@' is "example.com", so the claim predicts that a DOMAIN_BLACKLIST
rule with value "example.com" matches; but `extractDomain` requires the split
on '@' to have exactly two parts and returns the empty string here, so the
rule does not match. -/
theorem C7_counterexample :
    specAfterLastAt (str "a@b@example.com") = str "example.com" ∧
    evaluateEmailRule rxNone
        (mkRule (str "DOMAIN_BLACKLIST") (str "example.com") 50 1)
        (str "a@b@example.com") = Except.ok false := by
  decide

/-- C7 (amended): an EMAIL_BLACKLIST rule matches iff the address equals the
rule value ignoring case; a DOMAIN_BLACKLIST rule matches iff the address
contains exactly one '@' and the part after it equals the rule value ignoring
case — when the address does not contain exactly one '@' the extracted
domain is empty, so the rule matches only an empty value. -/
theorem C7_email_match_semantics (rx : Matcher) (r : RiskRule) (e v : Str) :
    (r.type = str "EMAIL_BLACKLIST" → r.value = v →
      (evaluateEmailRule rx r e = Except.ok true ↔ goToLower e = goToLower v)) ∧
    (r.type = str "DOMAIN_BLACKLIST" → r.value = v →
      ((splitOnChar '@' e).length = 2 →
        (evaluateEmailRule rx r e = Except.ok true ↔
          goToLower ((splitOnChar '@' e).getD 1 []) = goToLower v)) ∧
      ((splitOnChar '@' e).length ≠ 2 →
        (evaluateEmailRule rx r e = Except.ok true ↔ goToLower v = []))) := by
  constructor
  · intro ht hv
    subst hv
    unfold evaluateEmailRule
    rw [if_pos ht, eqFold_lower_right]
    simp [eqFold]
  · intro ht hv
    subst hv
    unfold evaluateEmailRule
    rw [ht]
    rw [if_neg (by decide), if_neg (by decide), if_pos rfl]
    constructor
    · intro hlen
      unfold extractDomain
      rw [if_pos hlen, eqFold_lower_right, eqFold_lower_left]
      simp [eqFold]
    · intro hlen
      unfold extractDomain
      rw [if_neg hlen, eqFold_lower_right]
      simp [eqFold, goToLower]

/-- Witness for C7: "User@Example.com" matches an EMAIL_BLACKLIST rule with
value "user@example.com". -/
theorem C7_email_match_semantics_witness :
    evaluateEmailRule rxNone
      (mkRule (str "EMAIL_BLACKLIST") (str "user@example.com") 10 1)
      (str "User@Example.com") = Except.ok true :=
  ((C7_email_match_semantics rxNone
      (mkRule (str "EMAIL_BLACKLIST") (str "user@example.com") 10 1)
      (str "User@Example.com") (str "user@example.com")).1 rfl rfl).mpr (by decide)

/-- The six `ReplaceAll` passes of `normalizePhoneNumber` remove exactly the
characters the spec lists. -/
theorem removeAll_chain (p : Str) :
    removeAll '.' (removeAll '+' (removeAll ')' (removeAll '('
      (removeAll '-' (removeAll ' ' p))))) = specStripPhoneChars p := by
  simp only [removeAll, specStripPhoneChars, List.filter_filter]
  apply List.filter_congr
  intro c _
  by_cases h1 : c = ' ' <;> by_cases h2 : c = '-' <;> by_cases h3 : c = '(' <;>
    by_cases h4 : c = ')' <;> by_cases h5 : c = '+' <;> by_cases h6 : c = '.' <;>
    simp_all

/-- C8 counterexample: normalization does not remove exactly the five listed
characters — `strings.TrimSpace` additionally strips other leading/trailing
white-space, so a phone starting with a tab normalizes to "123" where the
claim predicts the tab is kept. -/
theorem C8_counterexample :
    normalizePhoneNumber (str "\t123") = str "123" ∧
    specStripPhoneChars (str "\t123") = str "\t123" ∧
    normalizePhoneNumber (str "\t123") ≠ specStripPhoneChars (str "\t123") := by
  decide

/-- C8 (amended): normalization removes all spaces, hyphens, parentheses,
plus signs and periods and additionally trims leading/trailing white-space;
"+1 (555) 000-1234" normalizes to "15550001234"; a PHONE_BLACKLIST rule
matches iff the normalized input equals the normalized rule value; a
PREFIX_BLACKLIST rule matches iff the normalized rule value is a prefix of
the normalized input — in particular value "+1-555" matches that input. -/
theorem C8_phone_match_semantics (rx : Matcher) (r : RiskRule) (p v : Str) :
    (normalizePhoneNumber p = goTrimSpace (specStripPhoneChars p)) ∧
    (normalizePhoneNumber (str "+1 (555) 000-1234") = str "15550001234") ∧
    (r.type = str "PHONE_BLACKLIST" → r.value = v →
      (evaluatePhoneRule rx r (normalizePhoneNumber p) = Except.ok true ↔
        normalizePhoneNumber p = normalizePhoneNumber v)) ∧
    (r.type = str "PREFIX_BLACKLIST" → r.value = v →
      (evaluatePhoneRule rx r (normalizePhoneNumber p) = Except.ok true ↔
        isPfxOf (normalizePhoneNumber v) (normalizePhoneNumber p) = true)) ∧
    isPfxOf (normalizePhoneNumber (str "+1-555"))
      (normalizePhoneNumber (str "+1 (555) 000-1234")) = true := by
  refine ⟨?_, by decide, ?_, ?_, by decide⟩
  · unfold normalizePhoneNumber
    rw [removeAll_chain]
  · intro ht hv
    subst hv
    unfold evaluatePhoneRule
    rw [if_pos ht]
    simp
  · intro ht hv
    subst hv
    unfold evaluatePhoneRule
    rw [ht, if_neg (by decide), if_neg (by decide), if_pos rfl]
    simp

/-- Witness for C8: the blacklist clause at a concrete rule and phone — the
rule value "555.12 34" and the input "5551234" normalize equal, so the rule
matches. -/
theorem C8_phone_match_semantics_witness :
    evaluatePhoneRule rxNone (mkRule (str "PHONE_BLACKLIST") (str "555.12 34") 10 1)
      (normalizePhoneNumber (str "5551234")) = Except.ok true :=
  ((C8_phone_match_semantics rxNone
      (mkRule (str "PHONE_BLACKLIST") (str "555.12 34") 10 1)
      (str "5551234") (str "555.12 34")).2.2.1 rfl rfl).mpr (by decide)

/-- A phone rule of blacklist or prefix type whose value does not normalize
to the empty string never matches the empty phone number. -/
theorem evalPhoneRule_empty (rx : Matcher) (r : RiskRule)
    (hty : r.type = str "PHONE_BLACKLIST" ∨ r.type = str "PREFIX_BLACKLIST")
    (hv : normalizePhoneNumber r.value ≠ []) :
    evaluatePhoneRule rx r [] = Except.ok false := by
  rcases hty with h | h
  · unfold evaluatePhoneRule
    rw [if_pos h]
    simp only [Except.ok.injEq, decide_eq_false_iff_not]
    exact fun hh => hv hh.symm
  · unfold evaluatePhoneRule
    rw [h, if_neg (by decide), if_neg (by decide), if_pos rfl]
    cases hc : normalizePhoneNumber r.value with
    | nil => exact absurd hc hv
    | cons a as => rfl

/-- A name rule of a blacklist or contains type with a non-empty value never
matches empty first, last and full names. -/
theorem evalNameRule_empty (rx : Matcher) (r : RiskRule)
    (hty : r.type = str "NAME_BLACKLIST" ∨ r.type = str "CONTAINS" ∨
      r.type = str "FIRST_NAME_BLACKLIST" ∨ r.type = str "LAST_NAME_BLACKLIST")
    (hv : r.value ≠ []) :
    evaluateNameRule rx r [] [] [] = Except.ok false := by
  have hlow : goToLower r.value ≠ [] := fun hh => hv (goToLower_eq_nil.mp hh)
  have hfold : eqFold [] (goToLower r.value) = false := by
    rw [eqFold_lower_right]
    simp only [eqFold, decide_eq_false_iff_not]
    intro hh
    exact hlow hh.symm
  rcases hty with h | h | h | h
  · unfold evaluateNameRule
    rw [if_pos h, hfold]
  · unfold evaluateNameRule
    rw [h, if_neg (by decide), if_neg (by decide), if_pos rfl]
    cases hc : goToLower r.value with
    | nil => exact absurd hc hlow
    | cons a as => rfl
  · unfold evaluateNameRule
    rw [h, if_neg (by decide), if_neg (by decide), if_neg (by decide),
      if_pos rfl, hfold]
  · unfold evaluateNameRule
    rw [h, if_neg (by decide), if_neg (by decide), if_neg (by decide),
      if_neg (by decide), if_pos rfl, hfold]

/-- C9 counterexample: an empty phone number does match phone rules whose
value normalizes to the empty string — a PHONE_BLACKLIST rule with value "+"
matches the empty phone and contributes its full score — and empty names
match a NAME_BLACKLIST rule with an empty value. -/
theorem C9_counterexample :
    (checkPhoneRisk rxNone [mkRule (str "PHONE_BLACKLIST") (str "+") 50 1] []).2.2 ≠ [] ∧
    (checkPhoneRisk rxNone [mkRule (str "PHONE_BLACKLIST") (str "+") 50 1] []).1 = 50 ∧
    (checkNameRisk rxNone [mkRule (str "NAME_BLACKLIST") [] 50 1] [] []).2.2 ≠ [] := by
  decide

/-- C9 (amended): an empty phone produces no phone-rule matches and empty
names produce no name-rule matches — zero score, no flags, no matched rules
— provided every rule is of a non-PATTERN_MATCH type for its category and
its value is non-empty after the category's normalization (a phone value
must not normalize to the empty string; a name value must be non-empty). -/
theorem C9_empty_inputs_no_matches (rx : Matcher)
    (phoneRules nameRules : List RiskRule)
    (hp : ∀ r ∈ phoneRules,
      (r.type = str "PHONE_BLACKLIST" ∨ r.type = str "PREFIX_BLACKLIST") ∧
        normalizePhoneNumber r.value ≠ [])
    (hn : ∀ r ∈ nameRules,
      (r.type = str "NAME_BLACKLIST" ∨ r.type = str "CONTAINS" ∨
        r.type = str "FIRST_NAME_BLACKLIST" ∨ r.type = str "LAST_NAME_BLACKLIST") ∧
        r.value ≠ []) :
    checkPhoneRisk rx phoneRules [] = (0, [], []) ∧
    checkNameRisk rx nameRules [] [] = (0, [], []) := by
  constructor
  · simp only [checkPhoneRisk]
    apply runRules_noMatch
    intro r hr
    obtain ⟨hty, hval⟩ := hp r hr
    have h2 : isOkTrue (evaluatePhoneRule rx r []) = false := by
      rw [evalPhoneRule_empty rx r hty hval]
      rfl
    exact h2
  · simp only [checkNameRisk]
    apply runRules_noMatch
    intro r hr
    obtain ⟨hty, hval⟩ := hn r hr
    have h2 : isOkTrue (evaluateNameRule rx r [] [] []) = false := by
      rw [evalNameRule_empty rx r hty hval]
      rfl
    exact h2

/-- Witness for C9 at a concrete rule cache: one phone blacklist rule and
one name blacklist rule, both with non-empty values, match nothing on empty
inputs. -/
theorem C9_empty_inputs_no_matches_witness :
    checkPhoneRisk rxNone [mkRule (str "PHONE_BLACKLIST") (str "5551234") 50 1] [] =
      (0, [], []) ∧
    checkNameRisk rxNone [mkRule (str "NAME_BLACKLIST") (str "bad guy") 50 1] [] [] =
      (0, [], []) :=
  C9_empty_inputs_no_matches rxNone
    [mkRule (str "PHONE_BLACKLIST") (str "5551234") 50 1]
    [mkRule (str "NAME_BLACKLIST") (str "bad guy") 50 1]
    (by decide) (by decide)

/-- The per-category email check: its score is the sum of the adjusted
scores of its matched rules, and its audit list is exactly those rules. -/
theorem checkEmailRisk_eq (rx : Matcher) (rules : List RiskRule) (email : Str) :
    (checkEmailRisk rx rules email).1 =
      ((matchedEmailRules rx rules email).map adjustedScore).sum ∧
    (checkEmailRisk rx rules email).2.2 = matchedEmailRules rx rules email := by
  simp only [checkEmailRisk, matchedEmailRules]
  refine ⟨?_, runRules_matched _ _ _⟩
  rw [runRules_score, runRules_matched]

/-- The per-category name check: score and audit list, as for email. -/
theorem checkNameRisk_eq (rx : Matcher) (rules : List RiskRule)
    (firstName lastName : Str) :
    (checkNameRisk rx rules firstName lastName).1 =
      ((matchedNameRules rx rules firstName lastName).map adjustedScore).sum ∧
    (checkNameRisk rx rules firstName lastName).2.2 =
      matchedNameRules rx rules firstName lastName := by
  simp only [checkNameRisk, matchedNameRules]
  refine ⟨?_, runRules_matched _ _ _⟩
  rw [runRules_score, runRules_matched]

/-- The per-category phone check: score and audit list, as for email. -/
theorem checkPhoneRisk_eq (rx : Matcher) (rules : List RiskRule) (phone : Str) :
    (checkPhoneRisk rx rules phone).1 =
      ((matchedPhoneRules rx rules phone).map adjustedScore).sum ∧
    (checkPhoneRisk rx rules phone).2.2 = matchedPhoneRules rx rules phone := by
  simp only [checkPhoneRisk, matchedPhoneRules]
  refine ⟨?_, runRules_matched _ _ _⟩
  rw [runRules_score, runRules_matched]

/-- On a successful refresh, the total score of a check is the sum of the
three per-category scores evaluated against the refreshed cache. -/
theorem CheckRisk_success_totalScore (rx : Matcher) (load : RuleLoader)
    (now : Int) (checkId : Str) (req : RiskCheckRequest) (s : EngineState)
    (h : (refreshRulesCache load now s).2 = none) :
    (CheckRisk rx load now checkId req s).1.1.totalScore =
      (checkEmailRisk rx (refreshRulesCache load now s).1.emailRules req.email).1 +
      (checkNameRisk rx (refreshRulesCache load now s).1.nameRules
        req.firstName req.lastName).1 +
      (checkPhoneRisk rx (refreshRulesCache load now s).1.phoneRules req.phone).1 := by
  cases hr : refreshRulesCache load now s with
  | mk s1 o =>
    rw [hr] at h
    replace h : o = none := h
    subst h
    simp only [CheckRisk, hr]
    split <;> rfl

/-- On a successful refresh, the audit entries of a check are the matched
rules of the three categories in order, each carrying its adjusted score. -/
theorem CheckRisk_success_matchedRules (rx : Matcher) (load : RuleLoader)
    (now : Int) (checkId : Str) (req : RiskCheckRequest) (s : EngineState)
    (h : (refreshRulesCache load now s).2 = none) :
    (CheckRisk rx load now checkId req s).1.1.matchedRules =
      ((checkEmailRisk rx (refreshRulesCache load now s).1.emailRules req.email).2.2 ++
       (checkNameRisk rx (refreshRulesCache load now s).1.nameRules
         req.firstName req.lastName).2.2 ++
       (checkPhoneRisk rx (refreshRulesCache load now s).1.phoneRules req.phone).2.2).map
        (fun r => ({ checkId := checkId, ruleId := r.id, ruleName := r.name,
                     scoreAdded := adjustedScore r } : RiskCheckRuleMatch)) := by
  cases hr : refreshRulesCache load now s with
  | mk s1 o =>
    rw [hr] at h
    replace h : o = none := h
    subst h
    simp only [CheckRisk, hr]
    split
    · next hemp =>
      rw [List.isEmpty_iff.mp hemp]
      rfl
    · rfl

/-- C2 counterexample: for a rule with score 100 and confidence 0.29 the
program computes the adjusted score in float64 — `int(100 * 0.29) = 28`,
because the double nearest to 0.29 is slightly below it — so the total score
of a check matching only this rule is 28, while the claim's formula
`⌊score · confidence⌋` gives 29. -/
theorem C2_counterexample :
    (CheckRisk rxNone loadNone 0 (str "check_2") req3 st29).1.1.totalScore = 28 ∧
    ((matchedEmailRules rxNone st29.emailRules req3.email ++
      matchedNameRules rxNone st29.nameRules req3.firstName req3.lastName ++
      matchedPhoneRules rxNone st29.phoneRules req3.phone).map
        (fun r => ⌊(r.score : ℚ) * r.confidence⌋)).sum = 29 ∧
    (CheckRisk rxNone loadNone 0 (str "check_2") req3 st29).1.1.totalScore ≠
      ((matchedEmailRules rxNone st29.emailRules req3.email ++
        matchedNameRules rxNone st29.nameRules req3.firstName req3.lastName ++
        matchedPhoneRules rxNone st29.phoneRules req3.phone).map
          (fun r => ⌊(r.score : ℚ) * r.confidence⌋)).sum := by
  have hM : matchedEmailRules rxNone st29.emailRules req3.email = [ruleConf29] := by
    decide
  have hN : matchedNameRules rxNone st29.nameRules req3.firstName req3.lastName = [] := by
    decide
  have hP : matchedPhoneRules rxNone st29.phoneRules req3.phone = [] := by
    decide
  have hconf : ruleConf29.confidence = (29 : ℚ) / 100 := by
    show conf29 = (29 : ℚ) / 100
    unfold conf29
    rw [Rat.mk'_eq_divInt, Rat.divInt_eq_div]
    norm_num
  have hprod : (ruleConf29.score : ℚ) * ruleConf29.confidence = 29 := by
    rw [hconf]
    show ((100 : ℤ) : ℚ) * _ = _
    push_cast
    ring
  have hfloor : ⌊(ruleConf29.score : ℚ) * ruleConf29.confidence⌋ = 29 := by
    rw [hprod]
    simp
  have h1 : (CheckRisk rxNone loadNone 0 (str "check_2") req3 st29).1.1.totalScore = 28 := by
    decide
  have h2 : ((matchedEmailRules rxNone st29.emailRules req3.email ++
      matchedNameRules rxNone st29.nameRules req3.firstName req3.lastName ++
      matchedPhoneRules rxNone st29.phoneRules req3.phone).map
        (fun r => ⌊(r.score : ℚ) * r.confidence⌋)).sum = 29 := by
    rw [hM, hN, hP]
    simp [hfloor]
  refine ⟨h1, h2, ?_⟩
  rw [h1, h2]
  decide

/-- C2 (amended): for a fresh cache, the total score of a check equals the
sum over all matched rules of `int(float64(score) * confidence)` computed in
binary64 floating-point arithmetic and truncated toward zero (which can
differ from `⌊score · confidence⌋`, e.g. 28 instead of 29 for score 100 and
confidence 0.29), and the total score also equals the sum of the ScoreAdded
fields of the audit entries. -/
theorem C2_total_score_invariants (rx : Matcher) (load : RuleLoader) (now : Int)
    (checkId : Str) (req : RiskCheckRequest) (s : EngineState)
    (hfresh : now - s.cacheTime < s.cacheTTL) :
    (CheckRisk rx load now checkId req s).1.1.totalScore =
      ((matchedEmailRules rx s.emailRules req.email ++
        matchedNameRules rx s.nameRules req.firstName req.lastName ++
        matchedPhoneRules rx s.phoneRules req.phone).map adjustedScore).sum ∧
    (CheckRisk rx load now checkId req s).1.1.totalScore =
      ((CheckRisk rx load now checkId req s).1.1.matchedRules.map
        (fun m => m.scoreAdded)).sum := by
  have hre := refreshRulesCache_fresh load now s hfresh
  have h2 : (refreshRulesCache load now s).2 = none := by rw [hre]
  have hts := CheckRisk_success_totalScore rx load now checkId req s h2
  have hmr := CheckRisk_success_matchedRules rx load now checkId req s h2
  rw [hre] at hts hmr
  dsimp only at hts hmr
  constructor
  · rw [hts, (checkEmailRisk_eq rx s.emailRules req.email).1,
      (checkNameRisk_eq rx s.nameRules req.firstName req.lastName).1,
      (checkPhoneRisk_eq rx s.phoneRules req.phone).1,
      List.map_append, List.map_append, List.sum_append, List.sum_append]
  · rw [hts, hmr, List.map_map,
      (checkEmailRisk_eq rx s.emailRules req.email).2,
      (checkNameRisk_eq rx s.nameRules req.firstName req.lastName).2,
      (checkPhoneRisk_eq rx s.phoneRules req.phone).2,
      (checkEmailRisk_eq rx s.emailRules req.email).1,
      (checkNameRisk_eq rx s.nameRules req.firstName req.lastName).1,
      (checkPhoneRisk_eq rx s.phoneRules req.phone).1,
      List.map_append, List.map_append, List.sum_append, List.sum_append]
    rfl

/-- Witness for C2 at the concrete single-rule scenario: the total score
equals the sum over the matched rules of the float-computed adjusted score,
and the sum of the audit entries. -/
theorem C2_total_score_invariants_witness :
    (CheckRisk rxNone loadNone 0 (str "check_2") req3 st3).1.1.totalScore =
      ((CheckRisk rxNone loadNone 0 (str "check_2") req3 st3).1.1.matchedRules.map
        (fun m => m.scoreAdded)).sum :=
  (C2_total_score_invariants rxNone loadNone 0 (str "check_2") req3 st3
    (by decide)).2

end RiskEngine
